import Mathlib

/-!
# Verification of the Fastmail JMAP MCP server

Shallow embedding of `fastmail_mcp.py`: the `FastmailClient` class (session
bootstrap, batched JMAP request execution, the three verb builders and the
mailbox-name lookup) and the tool-invocation layer (argument clamping,
response parsing, error trapping at the tool boundary).

Decoded JSON documents are modelled by the inductive `Json`; numbers are
integers (every number the program manipulates is an integer).  Python
exceptions are modelled by `PyErr` and fallible steps return `Except PyErr`.
The mutable client object is an explicit `ClientState` threaded through each
operation; the network is an oracle (`Network`), and every operation also
returns the list of network `Request`s it performed, so that claims about
"no refetch" or "exactly one POST" are statable.
-/

/-- A decoded JSON value (Python object produced by `response.json()`).
Object fields are kept in insertion order, as Python dicts do. -/
inductive Json where
  | null : Json
  | bool (b : Bool) : Json
  | num (n : Int) : Json
  | str (s : String) : Json
  | arr (items : List Json) : Json
  | obj (fields : List (String × Json)) : Json
deriving Inhabited

namespace Json

/-- Total field lookup (first binding wins, as in a Python dict built once). -/
def lookup? : Json → String → Option Json
  | .obj fields, k => go fields k
  | _, _ => none
where
  go : List (String × Json) → String → Option Json
    | [], _ => none
    | (k', v) :: rest, k => if k' = k then some v else go rest k

/-- Total array item lookup. -/
def item? : Json → Nat → Option Json
  | .arr items, i => items.get? i
  | _, _ => none

/-- Python truthiness of a decoded JSON value (`if x:`). -/
def truthy : Json → Bool
  | .null => false
  | .bool b => b
  | .num n => n != 0
  | .str s => s != ""
  | .arr items => !items.isEmpty
  | .obj fields => !fields.isEmpty

/-- Python `x == s` where `s` is a string literal: equality across types is
`False`, never an error. -/
def eqStr : Json → String → Bool
  | .str s, t => s = t
  | _, _ => false

end Json

/-- Python `s.lower()` on a string, character by character (the program only
compares ASCII folder names and roles). -/
def pyLower (s : String) : String := ⟨s.data.map Char.toLower⟩

/-- The Python exceptions the program can raise. -/
inductive PyErr where
  | keyError (key : String) : PyErr
  | indexError : PyErr
  | attributeError : PyErr
  | typeError : PyErr
  | valueError (msg : String) : PyErr
  | httpStatusError (code : Nat) : PyErr
deriving DecidableEq

/-- `str(e)` for each modelled exception (as interpolated into the
tool-boundary error text). -/
def pyErrStr : PyErr → String
  | .keyError key => "'" ++ key ++ "'"
  | .indexError => "list index out of range"
  | .attributeError => "attribute error"
  | .typeError => "type error"
  | .valueError msg => msg
  | .httpStatusError code => "HTTP status error " ++ toString code

namespace Json

/-- Python `d[k]` on a decoded value: `KeyError` when the key is missing,
`TypeError` when the value is not a dict. -/
def dictGet : Json → String → Except PyErr Json
  | .obj fields, k =>
    match (Json.obj fields).lookup? k with
    | some v => .ok v
    | none => .error (.keyError k)
  | _, _ => .error .typeError

/-- Python `d.get(k, default)`: `AttributeError` when the value is not a dict
(only dicts have `.get`). -/
def dictGetD : Json → String → Json → Except PyErr Json
  | .obj fields, k, dflt =>
    match (Json.obj fields).lookup? k with
    | some v => .ok v
    | none => .ok dflt
  | _, _, _ => .error .attributeError

/-- Python `xs[i]` on a decoded value: `IndexError` out of bounds,
`TypeError` when the value is not a list. -/
def index : Json → Nat → Except PyErr Json
  | .arr items, i =>
    match items.get? i with
    | some v => .ok v
    | none => .error .indexError
  | _, _ => .error .typeError

/-- Python `x.lower()`: only strings have `.lower`; any other decoded value
(including `None`) raises `AttributeError`. -/
def lower : Json → Except PyErr String
  | .str s => .ok (pyLower s)
  | _ => .error .attributeError

/-- Python `for x in xs` over a decoded value: the program only ever iterates
decoded lists; a non-list raises `TypeError`. -/
def asList : Json → Except PyErr (List Json)
  | .arr items => .ok items
  | _ => .error .typeError

end Json

mutual

/-- Python `str(x)` of a decoded JSON value, for f-string interpolation. -/
def pyStr : Json → String
  | .null => "None"
  | .bool true => "True"
  | .bool false => "False"
  | .num n => toString n
  | .str s => s
  | .arr items => "[" ++ String.intercalate ", " (pyStrList items) ++ "]"
  | .obj fields => "\x7b" ++ String.intercalate ", " (pyStrFields fields) ++ "\x7d"

/-- `str` of each element of a decoded list. -/
def pyStrList : List Json → List String
  | [] => []
  | x :: xs => pyStr x :: pyStrList xs

/-- `str` of each binding of a decoded dict. -/
def pyStrFields : List (String × Json) → List String
  | [] => []
  | (k, v) :: rest => (k ++ ": " ++ pyStr v) :: pyStrFields rest

end

/-- The mutable fields of a `FastmailClient` instance (`__init__`). -/
structure ClientState where
  api_token : String
  session_data : Option Json := none
  account_id : Option Json := none
  api_url : Option Json := none

/-- A network request performed by the client: the `GET` of the fixed session
endpoint, or a `POST` of a JSON payload to an API URL. -/
inductive Request where
  | getSession : Request
  | post (url : Json) (payload : Json) : Request

/-- The network as an oracle: what the session endpoint answers (after
`raise_for_status` and JSON decoding), and what any `POST` answers. -/
structure Network where
  sessionDoc : Except PyErr Json
  post : Json → Json → Except PyErr Json

/-- Python `None` serialises to JSON `null`; a held value serialises as is. -/
def optToJson : Option Json → Json
  | none => Json.null
  | some v => v

/-- Python truthiness of an optional field (`if not self.api_url`). -/
def truthyOpt : Option Json → Bool
  | none => false
  | some v => v.truthy

namespace FastmailClient

/-- `FastmailClient.get_session`: when `session_data is None`, fetch the
session document, cache it, then extract the mail account id and the API URL
(each extraction may raise `KeyError` after the document is already cached);
otherwise return the cached document with no network traffic. -/
def get_session (st : ClientState) (net : Network) :
    Except PyErr Json × ClientState × List Request :=
  match st.session_data with
  | some doc => (.ok doc, st, [])
  | none =>
    match net.sessionDoc with
    | .error e => (.error e, st, [.getSession])
    | .ok doc =>
      let st1 := { st with session_data := some doc }
      match doc.dictGet "primaryAccounts" >>= fun pa =>
            pa.dictGet "urn:ietf:params:jmap:mail" with
      | .error e => (.error e, st1, [.getSession])
      | .ok acct =>
        let st2 := { st1 with account_id := some acct }
        match doc.dictGet "apiUrl" with
        | .error e => (.error e, st2, [.getSession])
        | .ok url => (.ok doc, { st2 with api_url := some url }, [.getSession])

/-- The request body built by `make_jmap_request` (`payload = {...}`). -/
def jmapPayload (method_calls : Json) : Json :=
  Json.obj [
    ("using", Json.arr [
      Json.str "urn:ietf:params:jmap:core",
      Json.str "urn:ietf:params:jmap:mail"]),
    ("methodCalls", method_calls)]

/-- `FastmailClient.make_jmap_request`: ensure the session is loaded, raise
`ValueError` when `api_url` is still falsy, otherwise POST the payload and
return the decoded response verbatim. -/
def make_jmap_request (st : ClientState) (net : Network) (method_calls : Json) :
    Except PyErr Json × ClientState × List Request :=
  match get_session st net with
  | (.error e, st', tr) => (.error e, st', tr)
  | (.ok _, st', tr) =>
    match st'.api_url with
    | none =>
      (.error (.valueError "API URL not available - session may have failed"), st', tr)
    | some url =>
      if url.truthy then
        (net.post url (jmapPayload method_calls), st', tr ++ [.post url (jmapPayload method_calls)])
      else
        (.error (.valueError "API URL not available - session may have failed"), st', tr)

/-- The `method_calls` list built by `FastmailClient.search_emails` from the
current `self.account_id`, the accumulated `filter_conditions` dict and the
`limit` argument: an `Email/query` (call id `q1`) chained with an `Email/get`
(call id `g1`) whose ids are a back-reference into `q1`. -/
def searchEmailsMethodCalls (account_id : Option Json)
    (filter_conditions : List (String × Json)) (limit : Int) : Json :=
  Json.arr [
    Json.arr [Json.str "Email/query",
      Json.obj [
        ("accountId", optToJson account_id),
        ("filter", if filter_conditions.isEmpty then Json.null
                   else Json.obj filter_conditions),
        ("sort", Json.arr [Json.obj [
          ("property", Json.str "receivedAt"),
          ("isAscending", Json.bool false)]]),
        ("limit", Json.num limit)],
      Json.str "q1"],
    Json.arr [Json.str "Email/get",
      Json.obj [
        ("accountId", optToJson account_id),
        ("#ids", Json.obj [
          ("resultOf", Json.str "q1"),
          ("name", Json.str "Email/query"),
          ("path", Json.str "/ids")]),
        ("properties", Json.arr [Json.str "id", Json.str "subject",
          Json.str "from", Json.str "to", Json.str "receivedAt",
          Json.str "preview", Json.str "mailboxIds"])],
      Json.str "g1"]]

/-- The `method_calls` list built by `FastmailClient.get_email`. -/
def getEmailMethodCalls (account_id : Option Json) (email_id : String) : Json :=
  Json.arr [
    Json.arr [Json.str "Email/get",
      Json.obj [
        ("accountId", optToJson account_id),
        ("ids", Json.arr [Json.str email_id]),
        ("properties", Json.arr [Json.str "id", Json.str "subject",
          Json.str "from", Json.str "to", Json.str "cc", Json.str "bcc",
          Json.str "receivedAt", Json.str "sentAt", Json.str "textBody",
          Json.str "htmlBody", Json.str "bodyValues", Json.str "attachments"]),
        ("fetchTextBodyValues", Json.bool true)],
      Json.str "g1"]]

/-- The `method_calls` list built by `FastmailClient.list_mailboxes`. -/
def mailboxGetMethodCalls (account_id : Option Json) : Json :=
  Json.arr [
    Json.arr [Json.str "Mailbox/get",
      Json.obj [
        ("accountId", optToJson account_id),
        ("properties", Json.arr [Json.str "id", Json.str "name",
          Json.str "role", Json.str "totalEmails", Json.str "unreadEmails"])],
      Json.str "m1"]]

/-- `FastmailClient.get_email`. -/
def get_email (st : ClientState) (net : Network) (email_id : String) :
    Except PyErr Json × ClientState × List Request :=
  make_jmap_request st net (getEmailMethodCalls st.account_id email_id)

/-- `FastmailClient.list_mailboxes`. -/
def list_mailboxes (st : ClientState) (net : Network) :
    Except PyErr Json × ClientState × List Request :=
  make_jmap_request st net (mailboxGetMethodCalls st.account_id)

/-- The `for mailbox in mailboxes` loop of `FastmailClient.get_mailbox_id`:
return the id of the first mailbox whose `name` (a `KeyError` if absent,
`.lower()` an `AttributeError` if not a string) or whose `role` (default `""`
when absent) matches the requested name case-insensitively; `None` when the
scan finishes without a match.  The `or` is short-circuiting: `role` is only
examined when `name` did not match. -/
def scanMailboxes : List Json → String → Except PyErr (Option Json)
  | [], _ => .ok none
  | mb :: rest, mailbox_name => do
    let nameVal ← mb.dictGet "name"
    let nameLower ← nameVal.lower
    if nameLower = pyLower mailbox_name then do
      let idVal ← mb.dictGet "id"
      pure (some idVal)
    else do
      let roleVal ← mb.dictGetD "role" (Json.str "")
      let roleLower ← roleVal.lower
      if roleLower = pyLower mailbox_name then do
        let idVal ← mb.dictGet "id"
        pure (some idVal)
      else
        scanMailboxes rest mailbox_name

/-- `FastmailClient.get_mailbox_id`: list the mailboxes, then take
`result.get("methodResponses", [[]])[0][1].get("list", [])` (each indexing
step can raise) and scan it. -/
def get_mailbox_id (st : ClientState) (net : Network) (mailbox_name : String) :
    Except PyErr (Option Json) × ClientState × List Request :=
  match list_mailboxes st net with
  | (.error e, st', tr) => (.error e, st', tr)
  | (.ok result, st', tr) =>
    let parsed : Except PyErr (Option Json) := do
      let mr ← result.dictGetD "methodResponses" (Json.arr [Json.arr []])
      let first ← mr.index 0
      let second ← first.index 1
      let lst ← second.dictGetD "list" (Json.arr [])
      let items ← lst.asList
      scanMailboxes items mailbox_name
    (parsed, st', tr)

/-- Python truthiness of an `Optional[str]` (`if mailbox:`). -/
def truthyStrOpt : Option String → Bool
  | none => false
  | some s => s != ""

/-- Lines 78-80 of `search_emails`: the contribution of a mailbox lookup
result to `filter_conditions` — an `inMailbox` condition exactly when the
lookup produced a truthy id. -/
def inMailboxConditions : Option Json → List (String × Json)
  | some mid => if mid.truthy then [("inMailbox", mid)] else []
  | none => []

/-- Lines 72-80 of `FastmailClient.search_emails`: build `filter_conditions`
(a `text` condition when the query is non-empty; an `inMailbox` condition
when the mailbox argument is truthy and `get_mailbox_id` resolves it to a
truthy id; an exception from the lookup propagates). -/
def searchFilterConditions (st : ClientState) (net : Network) (query : String)
    (mailbox : Option String) :
    Except PyErr (List (String × Json)) × ClientState × List Request :=
  let filter0 : List (String × Json) :=
    if query != "" then [("text", Json.str query)] else []
  if truthyStrOpt mailbox then
    match get_mailbox_id st net (mailbox.getD "") with
    | (.error e, st', tr) => (.error e, st', tr)
    | (.ok (some mid), st', tr) =>
      if mid.truthy then (.ok (filter0 ++ [("inMailbox", mid)]), st', tr)
      else (.ok filter0, st', tr)
    | (.ok none, st', tr) => (.ok filter0, st', tr)
  else (.ok filter0, st, [])

/-- `FastmailClient.search_emails`: build `filter_conditions`, then submit
the chained `Email/query` / `Email/get` batch. -/
def search_emails (st : ClientState) (net : Network) (query : String)
    (limit : Int) (mailbox : Option String) :
    Except PyErr Json × ClientState × List Request :=
  match searchFilterConditions st net query mailbox with
  | (.error e, st', tr) => (.error e, st', tr)
  | (.ok filter_conditions, st', tr) =>
    match make_jmap_request st' net
        (searchEmailsMethodCalls st'.account_id filter_conditions limit) with
    | (r, st2, tr2) => (r, st2, tr ++ tr2)

end FastmailClient

namespace Tools

/-- `get_client()`: return the module-global client, creating it on first use;
raise `ValueError` when no API token is configured.  The returned pair is the
looked-up client and the new value of the global. -/
def get_client (globalClient : Option ClientState) (token : String) :
    Except PyErr ClientState × Option ClientState :=
  match globalClient with
  | some c => (.ok c, some c)
  | none =>
    if token = "" then
      (.error (.valueError "FASTMAIL_API_TOKEN is not configured. Please provide your Fastmail API token in the configuration."), none)
    else
      (.ok { api_token := token }, some { api_token := token })

/-- The `for response in ...` scan shared by the `search_emails` and
`list_mailboxes` tools: the first response whose `response[0]` equals the
method name contributes `response[1].get("list", [])` and the loop breaks;
otherwise the initial `[]` survives. -/
def findMethodList (method : String) : List Json → Except PyErr Json
  | [] => .ok (Json.arr [])
  | response :: rest => do
    let head ← response.index 0
    if head.eqStr method then do
      let args ← response.index 1
      args.dictGetD "list" (Json.arr [])
    else
      findMethodList method rest

/-- The `for response in ...` scan of the `get_email` tool: on the first
`Email/get` response, `email` becomes `emails_list[0]` when the list is
truthy and stays `None` otherwise, and the loop breaks. -/
def findFirstEmail : List Json → Except PyErr (Option Json)
  | [] => .ok none
  | response :: rest => do
    let head ← response.index 0
    if head.eqStr "Email/get" then do
      let args ← response.index 1
      let lst ← args.dictGetD "list" (Json.arr [])
      if lst.truthy then do
        let e ← lst.index 0
        pure (some e)
      else
        pure none
    else
      findFirstEmail rest

/-- One entry of `formatted_emails` in the `search_emails` tool. -/
def formatEmailSummary (email : Json) : Except PyErr String := do
  let fromList ← email.dictGetD "from" (Json.arr [Json.obj []])
  let fromFirst ← fromList.index 0
  let from_addr ← fromFirst.dictGetD "email" (Json.str "Unknown")
  let fromFirst2 ← fromList.index 0
  let from_name ← fromFirst2.dictGetD "name" (Json.str "")
  let idVal ← email.dictGet "id"
  let subject ← email.dictGetD "subject" (Json.str "No subject")
  let date ← email.dictGetD "receivedAt" (Json.str "Unknown")
  let preview ← email.dictGetD "preview" (Json.str "")
  pure ("ID: " ++ pyStr idVal ++
    "\nSubject: " ++ pyStr subject ++
    "\nFrom: " ++ pyStr from_name ++ " <" ++ pyStr from_addr ++ ">" ++
    "\nDate: " ++ pyStr date ++
    "\nPreview: " ++ pyStr preview ++ "\n")

/-- The `formatted_emails` list comprehension. -/
def formatEmailSummaries : List Json → Except PyErr (List String)
  | [] => .ok []
  | e :: rest => do
    let s ← formatEmailSummary e
    let others ← formatEmailSummaries rest
    pure (s :: others)

/-- Body of the `search_emails` tool's `try` block. -/
def searchEmailsBody (globalClient : Option ClientState) (token : String)
    (net : Network) (query : String) (limit : Int) (mailbox : String) :
    Except PyErr String × Option ClientState × List Request :=
  match get_client globalClient token with
  | (.error e, gc') => (.error e, gc', [])
  | (.ok c, _) =>
    let lim : Int := min limit 50
    let mailbox_filter : Option String := if mailbox != "" then some mailbox else none
    match FastmailClient.search_emails c net query lim mailbox_filter with
    | (.error e, c', tr) => (.error e, some c', tr)
    | (.ok result, c', tr) =>
      let out : Except PyErr String := do
        let mr ← result.dictGetD "methodResponses" (Json.arr [])
        let entries ← mr.asList
        let emailsJson ← findMethodList "Email/get" entries
        if !emailsJson.truthy then
          pure "No emails found matching your search criteria."
        else do
          let items ← emailsJson.asList
          let formatted ← formatEmailSummaries items
          pure ("Found " ++ toString items.length ++ " email(s):\n\n" ++
            String.intercalate "\n---\n" formatted)
      (out, some c', tr)

/-- The `search_emails` tool: the `try` body with every exception routed to
the `except` clause's error text. -/
def search_emails (globalClient : Option ClientState) (token : String)
    (net : Network) (query : String) (limit : Int) (mailbox : String) :
    String × Option ClientState × List Request :=
  match searchEmailsBody globalClient token net query limit mailbox with
  | (.ok s, gc', tr) => (s, gc', tr)
  | (.error e, gc', tr) => ("Error searching emails: " ++ pyErrStr e, gc', tr)

/-- The `", ".join(...)` over an address list in the `get_email` tool. -/
def formatAddrList : List Json → Except PyErr (List String)
  | [] => .ok []
  | t :: rest => do
    let name ← t.dictGetD "name" (Json.str "")
    let addr ← t.dictGetD "email" (Json.str "")
    let others ← formatAddrList rest
    pure ((pyStr name ++ " <" ++ pyStr addr ++ ">") :: others)

/-- The body-text loop of the `get_email` tool: the first textBody part whose
part id is a key of `body_values` contributes its `value`; `part_id` is
`part.get("partId")` for dict parts and the part itself otherwise. -/
def extractBodyText : List Json → Json → Except PyErr String
  | [], _ => .ok ""
  | part :: rest, body_values => do
    let part_id ← (match part with
      | Json.obj fields => (Json.obj fields).dictGetD "partId" Json.null
      | other => .ok other)
    match part_id with
    | Json.str s =>
      match body_values.lookup? s with
      | some v => do
        let value ← v.dictGetD "value" (Json.str "")
        pure (pyStr value)
      | none => extractBodyText rest body_values
    | _ => extractBodyText rest body_values

/-- The attachments block of the `get_email` tool. -/
def formatAttachments : List Json → Except PyErr (List String)
  | [] => .ok []
  | att :: rest => do
    let name ← att.dictGetD "name" (Json.str "Unknown")
    let ty ← att.dictGetD "type" (Json.str "Unknown type")
    let size ← att.dictGetD "size" (Json.num 0)
    let others ← formatAttachments rest
    pure (("- " ++ pyStr name ++ " (" ++ pyStr ty ++ ", " ++ pyStr size ++
      " bytes)") :: others)

/-- The formatting tail of the `get_email` tool (lines after the not-found
check). -/
def formatFullEmail (email : Json) : Except PyErr String := do
  let fromList ← email.dictGetD "from" (Json.arr [Json.obj []])
  let fromFirst ← fromList.index 0
  let from_addr ← fromFirst.dictGetD "email" (Json.str "Unknown")
  let fromFirst2 ← fromList.index 0
  let from_name ← fromFirst2.dictGetD "name" (Json.str "")
  let toVal ← email.dictGetD "to" (Json.arr [])
  let toItems ← toVal.asList
  let toStrs ← formatAddrList toItems
  let to_list := String.intercalate ", " toStrs
  let ccVal ← email.dictGetD "cc" Json.null
  let cc_list ← (if ccVal.truthy then do
      let ccItems ← ccVal.asList
      let ccStrs ← formatAddrList ccItems
      pure (String.intercalate ", " ccStrs)
    else pure "")
  let tbVal ← email.dictGetD "textBody" (Json.arr [])
  let bvVal ← email.dictGetD "bodyValues" (Json.obj [])
  let body_text ← (if tbVal.truthy && bvVal.truthy then do
      let parts ← tbVal.asList
      extractBodyText parts bvVal
    else pure "")
  let attVal ← email.dictGetD "attachments" Json.null
  let attachments_info ← (if attVal.truthy then do
      let atts ← attVal.asList
      let lines ← formatAttachments atts
      pure ("\n\nAttachments:\n" ++ String.intercalate "\n" lines)
    else pure "")
  let cc_line := if cc_list != "" then "\nCC: " ++ cc_list else ""
  let subject ← email.dictGetD "subject" (Json.str "No subject")
  let date ← email.dictGetD "receivedAt" (Json.str "Unknown")
  pure ("Subject: " ++ pyStr subject ++
    "\nFrom: " ++ pyStr from_name ++ " <" ++ pyStr from_addr ++ ">" ++
    "\nTo: " ++ to_list ++ cc_line ++
    "\nDate: " ++ pyStr date ++
    "\n" ++ attachments_info ++
    "\n\n--- Email Body ---\n" ++ body_text)

/-- Body of the `get_email` tool's `try` block. -/
def getEmailBody (globalClient : Option ClientState) (token : String)
    (net : Network) (email_id : String) :
    Except PyErr String × Option ClientState × List Request :=
  if email_id = "" then
    (.ok "Error: email_id is required. Use search_emails first to find email IDs.",
      globalClient, [])
  else
    match get_client globalClient token with
    | (.error e, gc') => (.error e, gc', [])
    | (.ok c, _) =>
      match FastmailClient.get_email c net email_id with
      | (.error e, c', tr) => (.error e, some c', tr)
      | (.ok result, c', tr) =>
        let out : Except PyErr String := do
          let mr ← result.dictGetD "methodResponses" (Json.arr [])
          let entries ← mr.asList
          let emailOpt ← findFirstEmail entries
          match emailOpt with
          | none => pure ("Email with ID '" ++ email_id ++ "' not found. The email may have been deleted or the ID may be incorrect.")
          | some email =>
            if !email.truthy then
              pure ("Email with ID '" ++ email_id ++ "' not found. The email may have been deleted or the ID may be incorrect.")
            else
              formatFullEmail email
        (out, some c', tr)

/-- The `get_email` tool with its `except` clause. -/
def get_email (globalClient : Option ClientState) (token : String)
    (net : Network) (email_id : String) :
    String × Option ClientState × List Request :=
  match getEmailBody globalClient token net email_id with
  | (.ok s, gc', tr) => (s, gc', tr)
  | (.error e, gc', tr) => ("Error retrieving email: " ++ pyErrStr e, gc', tr)

/-- One entry of `formatted_mailboxes` in the `list_mailboxes` tool. -/
def formatMailboxSummary (mailbox : Json) : Except PyErr String := do
  let role ← mailbox.dictGetD "role" (Json.str "custom")
  let name ← mailbox.dictGetD "name" (Json.str "Unknown")
  let total ← mailbox.dictGetD "totalEmails" (Json.num 0)
  let unread ← mailbox.dictGetD "unreadEmails" (Json.num 0)
  pure ("Name: " ++ pyStr name ++
    "\nRole: " ++ (if role.truthy then pyStr role else "custom") ++
    "\nTotal Emails: " ++ pyStr total ++
    "\nUnread Emails: " ++ pyStr unread)

/-- The `formatted_mailboxes` loop. -/
def formatMailboxSummaries : List Json → Except PyErr (List String)
  | [] => .ok []
  | mb :: rest => do
    let s ← formatMailboxSummary mb
    let others ← formatMailboxSummaries rest
    pure (s :: others)

/-- Body of the `list_mailboxes` tool's `try` block. -/
def listMailboxesBody (globalClient : Option ClientState) (token : String)
    (net : Network) :
    Except PyErr String × Option ClientState × List Request :=
  match get_client globalClient token with
  | (.error e, gc') => (.error e, gc', [])
  | (.ok c, _) =>
    match FastmailClient.list_mailboxes c net with
    | (.error e, c', tr) => (.error e, some c', tr)
    | (.ok result, c', tr) =>
      let out : Except PyErr String := do
        let mr ← result.dictGetD "methodResponses" (Json.arr [])
        let entries ← mr.asList
        let mbJson ← findMethodList "Mailbox/get" entries
        if !mbJson.truthy then
          pure "No mailboxes found in this account."
        else do
          let items ← mbJson.asList
          let formatted ← formatMailboxSummaries items
          pure ("Found " ++ toString items.length ++ " mailbox(es):\n\n" ++
            String.intercalate "\n---\n" formatted)
      (out, some c', tr)

/-- The `list_mailboxes` tool with its `except` clause. -/
def list_mailboxes (globalClient : Option ClientState) (token : String)
    (net : Network) : String × Option ClientState × List Request :=
  match listMailboxesBody globalClient token net with
  | (.ok s, gc', tr) => (s, gc', tr)
  | (.error e, gc', tr) => ("Error listing mailboxes: " ++ pyErrStr e, gc', tr)

end Tools

/-! ## Characterization lemmas -/

namespace FastmailClient

/-- Once `session_data` is cached, `get_session` answers from the cache for
any network, with no traffic and no state change. -/
theorem get_session_cached (st : ClientState) (net : Network) (d : Json)
    (h : st.session_data = some d) :
    get_session st net = (.ok d, st, []) := by
  unfold get_session
  rw [h]

/-- With a cached session and a truthy API URL, `make_jmap_request` is one
POST of the capability-declaring payload, with the response passed back
verbatim and the state untouched. -/
theorem make_jmap_request_loaded (st : ClientState) (net : Network)
    (calls d url : Json) (hs : st.session_data = some d)
    (hu : st.api_url = some url) (ht : url.truthy = true) :
    make_jmap_request st net calls
      = (net.post url (jmapPayload calls), st,
         [Request.post url (jmapPayload calls)]) := by
  unfold make_jmap_request
  rw [get_session_cached st net d hs]
  simp [hu, ht]

/-- `make_jmap_request` never changes the state of a client whose session is
already cached. -/
theorem make_jmap_request_state (st : ClientState) (net : Network)
    (calls d : Json) (hs : st.session_data = some d) :
    (make_jmap_request st net calls).2.1 = st := by
  unfold make_jmap_request
  rw [get_session_cached st net d hs]
  cases hau : st.api_url with
  | none => simp [hau]
  | some url => cases hturl : url.truthy <;> simp [hau, hturl]

/-- `list_mailboxes` never changes the state of a session-cached client. -/
theorem list_mailboxes_state (st : ClientState) (net : Network) (d : Json)
    (hs : st.session_data = some d) :
    (list_mailboxes st net).2.1 = st := by
  unfold list_mailboxes
  exact make_jmap_request_state st net _ d hs

/-- `get_email` never changes the state of a session-cached client. -/
theorem get_email_state (st : ClientState) (net : Network) (d : Json)
    (email_id : String) (hs : st.session_data = some d) :
    (get_email st net email_id).2.1 = st := by
  unfold get_email
  exact make_jmap_request_state st net _ d hs

/-- `get_mailbox_id` never changes the state of a session-cached client. -/
theorem get_mailbox_id_state (st : ClientState) (net : Network) (d : Json)
    (mailbox_name : String) (hs : st.session_data = some d) :
    (get_mailbox_id st net mailbox_name).2.1 = st := by
  unfold get_mailbox_id
  rcases hlm : list_mailboxes st net with ⟨r, st', tr⟩
  have hst' : st' = st := by
    have := list_mailboxes_state st net d hs
    rw [hlm] at this
    exact this
  cases r <;> simp [hst']

/-- The filter-building step never changes the state of a session-cached
client. -/
theorem searchFilterConditions_state (st : ClientState) (net : Network)
    (d : Json) (query : String) (mailbox : Option String)
    (hs : st.session_data = some d) :
    (searchFilterConditions st net query mailbox).2.1 = st := by
  unfold searchFilterConditions
  cases htm : truthyStrOpt mailbox with
  | false => simp [htm]
  | true =>
    simp only [htm, if_true]
    rcases hgm : get_mailbox_id st net (mailbox.getD "") with ⟨r, st', tr⟩
    have hst' : st' = st := by
      rw [← get_mailbox_id_state st net d (mailbox.getD "") hs, hgm]
    cases r with
    | error e => simpa using hst'
    | ok mid =>
      cases mid with
      | none => simpa using hst'
      | some v => cases hv : v.truthy <;> simp [hv] <;> exact hst'

/-- `search_emails` never changes the state of a session-cached client. -/
theorem search_emails_state (st : ClientState) (net : Network) (d : Json)
    (query : String) (limit : Int) (mailbox : Option String)
    (hs : st.session_data = some d) :
    (search_emails st net query limit mailbox).2.1 = st := by
  unfold search_emails
  rcases hfc : searchFilterConditions st net query mailbox with ⟨r, st', tr⟩
  have hst' : st' = st := by
    rw [← searchFilterConditions_state st net d query mailbox hs, hfc]
  subst hst'
  cases r with
  | error e => simp
  | ok fc =>
    rcases hmk : make_jmap_request st' net
        (searchEmailsMethodCalls st'.account_id fc limit) with ⟨r2, st2, tr2⟩
    have h2 : st2 = st' := by
      rw [← make_jmap_request_state st' net
        (searchEmailsMethodCalls st'.account_id fc limit) d hs, hmk]
    simp only [hmk]
    simp [h2]

/-- With a falsy mailbox argument the filter step is pure: only the `text`
condition (for a non-empty query) is built, with no traffic. -/
theorem searchFilterConditions_no_mailbox (st : ClientState) (net : Network)
    (query : String) (mailbox : Option String)
    (hmb : truthyStrOpt mailbox = false) :
    searchFilterConditions st net query mailbox
      = (.ok (if query != "" then [("text", Json.str query)] else []), st, []) := by
  unfold searchFilterConditions
  simp [hmb]

/-- With a truthy mailbox argument whose lookup returns normally, the filter
step appends an `inMailbox` condition exactly when the lookup produced a
truthy id. -/
theorem searchFilterConditions_mailbox (st st' : ClientState) (net : Network)
    (query m : String) (r : Option Json) (tr : List Request)
    (hm : m ≠ "")
    (hgm : get_mailbox_id st net m = (.ok r, st', tr)) :
    searchFilterConditions st net query (some m)
      = (.ok ((if query != "" then [("text", Json.str query)] else []) ++
          inMailboxConditions r), st', tr) := by
  have hts : truthyStrOpt (some m) = true := by
    simp [truthyStrOpt, hm]
  cases r with
  | none =>
    unfold searchFilterConditions
    simp [hts, hgm, inMailboxConditions]
  | some mid =>
    unfold searchFilterConditions
    cases h : mid.truthy <;> simp [hts, hgm, h, inMailboxConditions]

/-- `search_emails` on a session-cached client: one POST of the batch built
from the filter step's conditions, appended to the lookup's trace. -/
theorem search_emails_loaded (st : ClientState) (net : Network)
    (query : String) (limit : Int) (mailbox : Option String)
    (fc : List (String × Json)) (tr : List Request) (d url : Json)
    (hs : st.session_data = some d) (hu : st.api_url = some url)
    (ht : url.truthy = true)
    (hfc : searchFilterConditions st net query mailbox = (.ok fc, st, tr)) :
    search_emails st net query limit mailbox
      = (net.post url (jmapPayload (searchEmailsMethodCalls st.account_id fc limit)), st,
         tr ++ [Request.post url (jmapPayload (searchEmailsMethodCalls st.account_id fc limit))]) := by
  unfold search_emails
  rw [hfc]
  dsimp only
  rw [make_jmap_request_loaded st net
    (searchEmailsMethodCalls st.account_id fc limit) d url hs hu ht]

end FastmailClient

/-! ## Witness fixtures: a concrete session document, states and networks -/

/-- A concrete well-formed session document. -/
def wDoc : Json := Json.obj [
  ("primaryAccounts", Json.obj [("urn:ietf:params:jmap:mail", Json.str "u123")]),
  ("apiUrl", Json.str "https://api.example/jmap")]

/-- Its API URL. -/
def wUrl : Json := Json.str "https://api.example/jmap"

/-- Its mail account id. -/
def wAcct : Json := Json.str "u123"

/-- A client whose session is already cached from `wDoc`. -/
def wState : ClientState :=
  { api_token := "token", session_data := some wDoc,
    account_id := some wAcct, api_url := some wUrl }

/-- A freshly constructed client. -/
def wFresh : ClientState := { api_token := "token" }

/-- The tool returns the body's state and trace unchanged, whether the body
returned normally or raised. -/
theorem search_emails_tool_second (gc : Option ClientState) (tok : String)
    (net : Network) (q : String) (lim : Int) (mb : String) :
    (Tools.search_emails gc tok net q lim mb).2
      = (Tools.searchEmailsBody gc tok net q lim mb).2 := by
  unfold Tools.search_emails
  rcases Tools.searchEmailsBody gc tok net q lim mb with ⟨r, gc', tr⟩
  cases r <;> simp

/-- On a session-cached client with an empty mailbox argument, the
`search_emails` tool leaves the client untouched and performs exactly one
POST, of the batch built with the clamped limit. -/
theorem searchEmailsBody_loaded_second (st : ClientState) (net : Network)
    (tok q : String) (lim : Int) (d url : Json)
    (hs : st.session_data = some d) (hu : st.api_url = some url)
    (ht : url.truthy = true) :
    (Tools.searchEmailsBody (some st) tok net q lim "").2
      = (some st, [Request.post url (FastmailClient.jmapPayload
          (FastmailClient.searchEmailsMethodCalls st.account_id
            (if q != "" then [("text", Json.str q)] else []) (min lim 50)))]) := by
  have hfc := FastmailClient.searchFilterConditions_no_mailbox st net q none rfl
  have hmain := FastmailClient.search_emails_loaded st net q (min lim 50) none
    (if q != "" then [("text", Json.str q)] else []) [] d url hs hu ht hfc
  unfold Tools.searchEmailsBody
  rw [show Tools.get_client (some st) tok = (.ok st, some st) from rfl]
  dsimp only
  simp only [bne_self_eq_false, Bool.false_eq_true, if_false]
  rw [hmain]
  cases hnp : net.post url (FastmailClient.jmapPayload
      (FastmailClient.searchEmailsMethodCalls st.account_id
        (if q != "" then [("text", Json.str q)] else []) (min lim 50))) with
  | error e => simp [hnp]
  | ok result => simp [hnp]

/-- C1: for every invocation of the `search_emails` tool, a limit argument
greater than 50 reaches the `Email/query` method call as exactly 50, and a
limit of at most 50 is passed through unchanged: the single POSTed batch
carries `min limit 50` in its query call's `limit` field. -/
theorem c1_search_limit_clamped (st : ClientState) (net : Network)
    (tok q : String) (lim : Int) (d url : Json)
    (hs : st.session_data = some d) (hu : st.api_url = some url)
    (ht : url.truthy = true) :
    (Tools.search_emails (some st) tok net q lim "").2.2
      = [Request.post url (FastmailClient.jmapPayload
          (FastmailClient.searchEmailsMethodCalls st.account_id
            (if q != "" then [("text", Json.str q)] else [])
            (if lim ≤ 50 then lim else 50)))]
    ∧ ((FastmailClient.searchEmailsMethodCalls st.account_id
          (if q != "" then [("text", Json.str q)] else [])
          (if lim ≤ 50 then lim else 50)).item? 0).bind
        (fun call => (call.item? 1).bind (fun args => args.lookup? "limit"))
        = some (Json.num (if lim ≤ 50 then lim else 50)) := by
  constructor
  · have h2 := search_emails_tool_second (some st) tok net q lim ""
    have h3 := searchEmailsBody_loaded_second st net tok q lim d url hs hu ht
    have h4 : (Tools.search_emails (some st) tok net q lim "").2.2
        = (Tools.searchEmailsBody (some st) tok net q lim "").2.2 := by
      rw [h2]
    rw [h4, h3]
    rw [min_def]
  · rfl

/-- Witness for C1 at a concrete input: limit 99 is clamped to 50. -/
theorem c1_search_limit_clamped_witness :
    (Tools.search_emails (some wState) "token"
        ⟨.ok wDoc, fun _ _ => .ok Json.null⟩ "hello" 99 "").2.2
      = [Request.post wUrl (FastmailClient.jmapPayload
          (FastmailClient.searchEmailsMethodCalls wState.account_id
            (if ("hello" != "") = true then [("text", Json.str "hello")] else [])
            (if (99 : Int) ≤ 50 then 99 else 50)))]
    ∧ ((FastmailClient.searchEmailsMethodCalls wState.account_id
          (if ("hello" != "") = true then [("text", Json.str "hello")] else [])
          (if (99 : Int) ≤ 50 then 99 else 50)).item? 0).bind
        (fun call => (call.item? 1).bind (fun args => args.lookup? "limit"))
        = some (Json.num (if (99 : Int) ≤ 50 then 99 else 50)) :=
  c1_search_limit_clamped wState ⟨.ok wDoc, fun _ _ => .ok Json.null⟩
    "token" "hello" 99 wDoc wUrl rfl rfl rfl

/-- C6: `make_jmap_request` first ensures the session is loaded (the trace
of the session step comes first), then POSTs a body whose `using` field is
exactly the two capability URNs and whose `methodCalls` field is exactly the
given list, and hands back whatever JSON the network answered, for every
network — no validation of its shape. -/
theorem c6_make_jmap_request_shape (st st' : ClientState) (net : Network)
    (calls d url : Json) (tr : List Request)
    (hsess : FastmailClient.get_session st net = (.ok d, st', tr))
    (hu : st'.api_url = some url) (ht : url.truthy = true) :
    FastmailClient.make_jmap_request st net calls
      = (net.post url (Json.obj [
          ("using", Json.arr [Json.str "urn:ietf:params:jmap:core",
            Json.str "urn:ietf:params:jmap:mail"]),
          ("methodCalls", calls)]), st',
         tr ++ [Request.post url (Json.obj [
          ("using", Json.arr [Json.str "urn:ietf:params:jmap:core",
            Json.str "urn:ietf:params:jmap:mail"]),
          ("methodCalls", calls)])]) := by
  unfold FastmailClient.make_jmap_request
  rw [hsess]
  dsimp only
  rw [hu]
  dsimp only
  rw [ht]
  simp [FastmailClient.jmapPayload]

/-- C2: when the first `get_session` call succeeds, `account_id` and
`api_url` are populated from the fetched document; every later call answers
from the cache with no network traffic and the same document, for any
network; and no subsequent operation (`make_jmap_request`, `search_emails`,
`get_email`, `list_mailboxes`) ever changes the client state again. -/
theorem c2_session_fetched_once (st0 st1 : ClientState) (net : Network)
    (doc pa acct url : Json)
    (h0 : st0.session_data = none)
    (hdoc : net.sessionDoc = .ok doc)
    (hpa : doc.dictGet "primaryAccounts" = .ok pa)
    (hacct : pa.dictGet "urn:ietf:params:jmap:mail" = .ok acct)
    (hurl : doc.dictGet "apiUrl" = .ok url)
    (hst1 : st1 = { st0 with
                     session_data := some doc,
                     account_id := some acct,
                     api_url := some url }) :
    FastmailClient.get_session st0 net = (.ok doc, st1, [Request.getSession])
    ∧ (∀ net2 : Network,
        FastmailClient.get_session st1 net2 = (.ok doc, st1, []))
    ∧ (∀ (net2 : Network) (calls : Json),
        (FastmailClient.make_jmap_request st1 net2 calls).2.1 = st1)
    ∧ (∀ (net2 : Network) (q : String) (lim : Int) (mb : Option String),
        (FastmailClient.search_emails st1 net2 q lim mb).2.1 = st1)
    ∧ (∀ (net2 : Network) (eid : String),
        (FastmailClient.get_email st1 net2 eid).2.1 = st1)
    ∧ (∀ net2 : Network,
        (FastmailClient.list_mailboxes st1 net2).2.1 = st1) := by
  subst hst1
  have hcached : ({ st0 with
      session_data := some doc,
      account_id := some acct,
      api_url := some url } : ClientState).session_data = some doc := rfl
  refine ⟨?_, ?_, ?_, ?_, ?_, ?_⟩
  · unfold FastmailClient.get_session
    rw [h0, hdoc]
    have hbind : (doc.dictGet "primaryAccounts" >>= fun pa =>
        pa.dictGet "urn:ietf:params:jmap:mail") = .ok acct := by
      rw [hpa]
      simp [Bind.bind, Except.bind, hacct]
    dsimp only
    rw [hbind]
    dsimp only
    rw [hurl]
  · intro net2
    exact FastmailClient.get_session_cached _ net2 doc hcached
  · intro net2 calls
    exact FastmailClient.make_jmap_request_state _ net2 calls doc hcached
  · intro net2 q lim mb
    exact FastmailClient.search_emails_state _ net2 doc q lim mb hcached
  · intro net2 eid
    exact FastmailClient.get_email_state _ net2 doc eid hcached
  · intro net2
    exact FastmailClient.list_mailboxes_state _ net2 doc hcached

/-- Witness for C2 at the concrete session document `wDoc`. -/
theorem c2_session_fetched_once_witness :
    FastmailClient.get_session wFresh ⟨.ok wDoc, fun _ _ => .ok Json.null⟩
      = (.ok wDoc, wState, [Request.getSession])
    ∧ (∀ net2 : Network,
        FastmailClient.get_session wState net2 = (.ok wDoc, wState, []))
    ∧ (∀ (net2 : Network) (calls : Json),
        (FastmailClient.make_jmap_request wState net2 calls).2.1 = wState)
    ∧ (∀ (net2 : Network) (q : String) (lim : Int) (mb : Option String),
        (FastmailClient.search_emails wState net2 q lim mb).2.1 = wState)
    ∧ (∀ (net2 : Network) (eid : String),
        (FastmailClient.get_email wState net2 eid).2.1 = wState)
    ∧ (∀ net2 : Network,
        (FastmailClient.list_mailboxes wState net2).2.1 = wState) :=
  c2_session_fetched_once wFresh wState ⟨.ok wDoc, fun _ _ => .ok Json.null⟩
    wDoc (Json.obj [("urn:ietf:params:jmap:mail", Json.str "u123")]) wAcct wUrl
    rfl rfl rfl rfl rfl rfl

/-- C3: when the provider's `Email/get` response list contains no email (the
response scan finds none), the `get_email` tool answers with the not-found
text — an ordinary return value, not a raised exception (the `except` branch,
which would prepend "Error retrieving email:", is not taken). -/
theorem c3_get_email_not_found (gc gc2 : Option ClientState) (tok : String)
    (net : Network) (eid : String) (c c' : ClientState)
    (result mr : Json) (entries : List Json) (tr : List Request)
    (heid : ¬ eid = "")
    (hcl : Tools.get_client gc tok = (.ok c, gc2))
    (hres : FastmailClient.get_email c net eid = (.ok result, c', tr))
    (hmr : result.dictGetD "methodResponses" (Json.arr []) = .ok mr)
    (hlist : mr.asList = .ok entries)
    (hscan : Tools.findFirstEmail entries = .ok none) :
    Tools.get_email gc tok net eid
      = ("Email with ID '" ++ eid ++ "' not found. The email may have been deleted or the ID may be incorrect.",
         some c', tr) := by
  unfold Tools.get_email Tools.getEmailBody
  rw [if_neg heid, hcl]
  dsimp only
  rw [hres]
  dsimp only
  rw [show (do
      let mr2 ← result.dictGetD "methodResponses" (Json.arr [])
      let entries2 ← mr2.asList
      let emailOpt ← Tools.findFirstEmail entries2
      match emailOpt with
      | none => pure ("Email with ID '" ++ eid ++ "' not found. The email may have been deleted or the ID may be incorrect.")
      | some email =>
        if !email.truthy then
          pure ("Email with ID '" ++ eid ++ "' not found. The email may have been deleted or the ID may be incorrect.")
        else
          Tools.formatFullEmail email : Except PyErr String)
      = .ok ("Email with ID '" ++ eid ++ "' not found. The email may have been deleted or the ID may be incorrect.") from by
    rw [hmr]
    simp only [Bind.bind, Except.bind]
    rw [hlist]
    simp only []
    rw [hscan]
    rfl]

/-- Witness for C3: a response whose `Email/get` list is empty. -/
theorem c3_get_email_not_found_witness :
    Tools.get_email (some wState) "token"
        ⟨.ok wDoc, fun _ _ => .ok (Json.obj [("methodResponses",
          Json.arr [Json.arr [Json.str "Email/get",
            Json.obj [("list", Json.arr [])], Json.str "g1"]])])⟩ "mid9"
      = ("Email with ID 'mid9' not found. The email may have been deleted or the ID may be incorrect.",
         some wState,
         [Request.post wUrl (FastmailClient.jmapPayload
           (FastmailClient.getEmailMethodCalls (some wAcct) "mid9"))]) :=
  c3_get_email_not_found (some wState) (some wState) "token"
    ⟨.ok wDoc, fun _ _ => .ok (Json.obj [("methodResponses",
      Json.arr [Json.arr [Json.str "Email/get",
        Json.obj [("list", Json.arr [])], Json.str "g1"]])])⟩ "mid9"
    wState wState
    (Json.obj [("methodResponses", Json.arr [Json.arr [Json.str "Email/get",
      Json.obj [("list", Json.arr [])], Json.str "g1"]])])
    (Json.arr [Json.arr [Json.str "Email/get",
      Json.obj [("list", Json.arr [])], Json.str "g1"]])
    [Json.arr [Json.str "Email/get", Json.obj [("list", Json.arr [])], Json.str "g1"]]
    [Request.post wUrl (FastmailClient.jmapPayload
      (FastmailClient.getEmailMethodCalls (some wAcct) "mid9"))]
    (by decide) rfl rfl rfl rfl rfl

/-- Following the spec's words, for comparison with the code: the role of a
mailbox entry read as a string, an absent (or non-string) role reading as
the empty string. -/
def specRoleString (mb : Json) : String :=
  match mb.lookup? "role" with
  | some (Json.str s) => s
  | _ => ""

/-- Following the spec's words: the mailbox's display name or role equals
the requested name under case-insensitive comparison. -/
def specMailboxMatch (mailbox_name : String) (mb : Json) : Bool :=
  (match mb.lookup? "name" with
   | some (Json.str s) => decide (pyLower s = pyLower mailbox_name)
   | _ => false)
  || decide (pyLower (specRoleString mb) = pyLower mailbox_name)

/-- Following the spec's words: the id of the first matching mailbox of the
listing, `none` when no mailbox matches. -/
def specFirstMatchId (mailbox_name : String) (mbs : List Json) : Option Json :=
  (mbs.find? (specMailboxMatch mailbox_name)).bind (fun mb => mb.lookup? "id")

/-- A provider mailbox listing containing a role-less custom folder: JMAP
delivers `"role": null` for such mailboxes. -/
def cxMailboxes : List Json :=
  [Json.obj [("name", Json.str "Family"), ("role", Json.null),
    ("id", Json.str "mb7")]]

/-- A network delivering `cxMailboxes` for every POST. -/
def cxNet : Network :=
  ⟨.ok wDoc, fun _ _ => .ok (Json.obj [("methodResponses",
    Json.arr [Json.arr [Json.str "Mailbox/get",
      Json.obj [("list", Json.arr cxMailboxes)], Json.str "m1"]])])⟩

/-- C4 counterexample: on a provider listing holding a null-role custom
folder, looking up a name that matches nothing does not return `None` as the
claim states: `mailbox.get("role", "").lower()` is `None.lower()`, an
`AttributeError`. -/
theorem c4_counterexample :
    (FastmailClient.get_mailbox_id wState cxNet "sent").1
      = .error .attributeError
    ∧ ¬ (FastmailClient.get_mailbox_id wState cxNet "sent").1
        = .ok (specFirstMatchId "sent" cxMailboxes) := by
  constructor
  · rfl
  · intro h
    rw [show (FastmailClient.get_mailbox_id wState cxNet "sent").1
        = .error .attributeError from rfl] at h
    exact Except.noConfusion h

/-- Well-formedness of one provider mailbox entry: a string name, a role
that is absent or a string, and an id. -/
def WellFormedMailbox (mb : Json) : Prop :=
  (∃ s, mb.lookup? "name" = some (Json.str s)) ∧
  (mb.lookup? "role" = none ∨ ∃ s, mb.lookup? "role" = some (Json.str s)) ∧
  (∃ j, mb.lookup? "id" = some j)

/-- `d[k]` answers the present binding. -/
theorem Json.dictGet_of_lookup (fs : List (String × Json)) (k : String)
    (v : Json) (h : (Json.obj fs).lookup? k = some v) :
    (Json.obj fs).dictGet k = .ok v := by
  unfold Json.dictGet
  dsimp only
  rw [h]

/-- `d.get(k, dflt)` answers the present binding. -/
theorem Json.dictGetD_of_lookup (fs : List (String × Json)) (k : String)
    (dflt v : Json) (h : (Json.obj fs).lookup? k = some v) :
    (Json.obj fs).dictGetD k dflt = .ok v := by
  unfold Json.dictGetD
  dsimp only
  rw [h]

/-- `d.get(k, dflt)` answers the default for an absent key. -/
theorem Json.dictGetD_of_lookup_none (fs : List (String × Json)) (k : String)
    (dflt : Json) (h : (Json.obj fs).lookup? k = none) :
    (Json.obj fs).dictGetD k dflt = .ok dflt := by
  unfold Json.dictGetD
  dsimp only
  rw [h]

/-- On a well-formed listing the scan loop returns exactly the spec-side
first case-insensitive match on name or role, and `none` without one. -/
theorem scanMailboxes_wellformed (mbs : List Json) (name : String)
    (h : ∀ mb ∈ mbs, WellFormedMailbox mb) :
    FastmailClient.scanMailboxes mbs name = .ok (specFirstMatchId name mbs) := by
  induction mbs with
  | nil => rfl
  | cons mb rest ih =>
    obtain ⟨⟨ns, hname⟩, hrole, ⟨idj, hid⟩⟩ := h mb (List.mem_cons_self mb rest)
    have hrest := ih (fun m hm => h m (List.mem_cons_of_mem mb hm))
    obtain ⟨fs, rfl⟩ : ∃ fs, mb = Json.obj fs := by
      cases mb with
      | obj fs => exact ⟨fs, rfl⟩
      | null => exact absurd hname (by simp [Json.lookup?])
      | bool b => exact absurd hname (by simp [Json.lookup?])
      | num n => exact absurd hname (by simp [Json.lookup?])
      | str s => exact absurd hname (by simp [Json.lookup?])
      | arr xs => exact absurd hname (by simp [Json.lookup?])
    unfold FastmailClient.scanMailboxes
    rw [Json.dictGet_of_lookup fs "name" (Json.str ns) hname]
    unfold specFirstMatchId
    by_cases hn : pyLower ns = pyLower name
    · simp only [Bind.bind, Except.bind, Json.lower, hn, if_true]
      rw [Json.dictGet_of_lookup fs "id" idj hid]
      have hm : specMailboxMatch name (Json.obj fs) = true := by
        unfold specMailboxMatch
        rw [hname]
        simp [hn]
      simp [List.find?, hm, hid, pure, Except.pure]
    · simp only [Bind.bind, Except.bind, Json.lower, hn, if_false]
      rcases hrole with hnone | ⟨rs, hsome⟩
      · rw [Json.dictGetD_of_lookup_none fs "role" (Json.str "") hnone]
        by_cases hr : pyLower "" = pyLower name
        · simp only [Json.lower, hr, if_true]
          rw [Json.dictGet_of_lookup fs "id" idj hid]
          have hm : specMailboxMatch name (Json.obj fs) = true := by
            unfold specMailboxMatch specRoleString
            rw [hnone]
            simp [hr]
          simp [List.find?, hm, hid, pure, Except.pure]
        · simp only [Json.lower, hr, if_false]
          have hm : specMailboxMatch name (Json.obj fs) = false := by
            unfold specMailboxMatch specRoleString
            rw [hname, hnone]
            simp [hn, hr]
          rw [hrest]
          unfold specFirstMatchId
          simp [List.find?, hm]
      · rw [Json.dictGetD_of_lookup fs "role" (Json.str "") (Json.str rs) hsome]
        by_cases hr : pyLower rs = pyLower name
        · simp only [Json.lower, hr, if_true]
          rw [Json.dictGet_of_lookup fs "id" idj hid]
          have hm : specMailboxMatch name (Json.obj fs) = true := by
            unfold specMailboxMatch specRoleString
            rw [hsome]
            simp [hr]
          simp [List.find?, hm, hid, pure, Except.pure]
        · simp only [Json.lower, hr, if_false]
          have hm : specMailboxMatch name (Json.obj fs) = false := by
            unfold specMailboxMatch specRoleString
            rw [hname, hsome]
            simp [hn, hr]
          rw [hrest]
          unfold specFirstMatchId
          simp [List.find?, hm]

/-- C4 (amended): on a provider listing whose entries are well formed — a
string name, a role that is absent or a string (in particular not null), and
an id — `get_mailbox_id` returns the id of the first mailbox whose display
name or role equals the argument case-insensitively, and `None` when no
mailbox matches. -/
theorem c4_amended_first_match (st : ClientState) (net : Network)
    (d url : Json) (mbs : List Json) (mailbox_name : String)
    (hs : st.session_data = some d) (hu : st.api_url = some url)
    (ht : url.truthy = true)
    (hwf : ∀ mb ∈ mbs, WellFormedMailbox mb)
    (hpost : net.post url (FastmailClient.jmapPayload
        (FastmailClient.mailboxGetMethodCalls st.account_id))
      = .ok (Json.obj [("methodResponses", Json.arr [Json.arr [
          Json.str "Mailbox/get", Json.obj [("list", Json.arr mbs)],
          Json.str "m1"]])])) :
    FastmailClient.get_mailbox_id st net mailbox_name
      = (.ok (specFirstMatchId mailbox_name mbs), st,
         [Request.post url (FastmailClient.jmapPayload
           (FastmailClient.mailboxGetMethodCalls st.account_id))]) := by
  unfold FastmailClient.get_mailbox_id FastmailClient.list_mailboxes
  rw [FastmailClient.make_jmap_request_loaded st net
    (FastmailClient.mailboxGetMethodCalls st.account_id) d url hs hu ht]
  dsimp only
  rw [hpost]
  rw [← scanMailboxes_wellformed mbs mailbox_name hwf]
  rfl

/-- A well-formed single-mailbox listing for the C4 witness. -/
def wMailboxes : List Json :=
  [Json.obj [("name", Json.str "Inbox"), ("role", Json.str "inbox"),
    ("id", Json.str "mb1")]]

/-- A network delivering `wMailboxes` for every POST. -/
def wMbNet : Network :=
  ⟨.ok wDoc, fun _ _ => .ok (Json.obj [("methodResponses",
    Json.arr [Json.arr [Json.str "Mailbox/get",
      Json.obj [("list", Json.arr wMailboxes)], Json.str "m1"]])])⟩

/-- Witness for the amended C4: a case-insensitive hit on the name. -/
theorem c4_amended_first_match_witness :
    FastmailClient.get_mailbox_id wState wMbNet "INBOX"
      = (.ok (specFirstMatchId "INBOX" wMailboxes), wState,
         [Request.post wUrl (FastmailClient.jmapPayload
           (FastmailClient.mailboxGetMethodCalls wState.account_id))]) :=
  c4_amended_first_match wState wMbNet wDoc wUrl wMailboxes "INBOX" rfl rfl rfl
    (by
      intro mb hm
      rw [show wMailboxes = [Json.obj [("name", Json.str "Inbox"),
        ("role", Json.str "inbox"), ("id", Json.str "mb1")]] from rfl] at hm
      rw [List.mem_singleton] at hm
      subst hm
      exact ⟨⟨"Inbox", rfl⟩, Or.inr ⟨"inbox", rfl⟩, ⟨Json.str "mb1", rfl⟩⟩)
    rfl
/-- C7: for every query, limit and mailbox argument (here: no mailbox, and a
truthy mailbox whose lookup returned), `FastmailClient.search_emails`
submits one batch of exactly two chained calls: an `Email/query` with call
id `q1`, sorted by `receivedAt` descending, whose filter carries a `text`
condition exactly when the query is non-empty, followed by an `Email/get`
whose ids are the back-reference `{resultOf: q1, name: Email/query, path:
/ids}` rather than a literal list. -/
theorem c7_search_two_chained_calls (st : ClientState) (net : Network)
    (q m : String) (lim : Int) (r : Option Json) (tr : List Request)
    (hm : ¬ m = "")
    (hmb : FastmailClient.get_mailbox_id st net m = (.ok r, st, tr)) :
    FastmailClient.search_emails st net q lim none
      = FastmailClient.make_jmap_request st net (Json.arr [
          Json.arr [Json.str "Email/query", Json.obj [
            ("accountId", optToJson st.account_id),
            ("filter", if q != "" then Json.obj [("text", Json.str q)]
                       else Json.null),
            ("sort", Json.arr [Json.obj [("property", Json.str "receivedAt"),
              ("isAscending", Json.bool false)]]),
            ("limit", Json.num lim)], Json.str "q1"],
          Json.arr [Json.str "Email/get", Json.obj [
            ("accountId", optToJson st.account_id),
            ("#ids", Json.obj [("resultOf", Json.str "q1"),
              ("name", Json.str "Email/query"), ("path", Json.str "/ids")]),
            ("properties", Json.arr [Json.str "id", Json.str "subject",
              Json.str "from", Json.str "to", Json.str "receivedAt",
              Json.str "preview", Json.str "mailboxIds"])], Json.str "g1"]])
    ∧ FastmailClient.search_emails st net q lim (some m)
      = ((FastmailClient.make_jmap_request st net (Json.arr [
          Json.arr [Json.str "Email/query", Json.obj [
            ("accountId", optToJson st.account_id),
            ("filter", if ((if q != "" then [("text", Json.str q)] else []) ++
                  FastmailClient.inMailboxConditions r).isEmpty then Json.null
              else Json.obj ((if q != "" then [("text", Json.str q)] else []) ++
                FastmailClient.inMailboxConditions r)),
            ("sort", Json.arr [Json.obj [("property", Json.str "receivedAt"),
              ("isAscending", Json.bool false)]]),
            ("limit", Json.num lim)], Json.str "q1"],
          Json.arr [Json.str "Email/get", Json.obj [
            ("accountId", optToJson st.account_id),
            ("#ids", Json.obj [("resultOf", Json.str "q1"),
              ("name", Json.str "Email/query"), ("path", Json.str "/ids")]),
            ("properties", Json.arr [Json.str "id", Json.str "subject",
              Json.str "from", Json.str "to", Json.str "receivedAt",
              Json.str "preview", Json.str "mailboxIds"])],
            Json.str "g1"]])).1,
         (FastmailClient.make_jmap_request st net (Json.arr [
          Json.arr [Json.str "Email/query", Json.obj [
            ("accountId", optToJson st.account_id),
            ("filter", if ((if q != "" then [("text", Json.str q)] else []) ++
                  FastmailClient.inMailboxConditions r).isEmpty then Json.null
              else Json.obj ((if q != "" then [("text", Json.str q)] else []) ++
                FastmailClient.inMailboxConditions r)),
            ("sort", Json.arr [Json.obj [("property", Json.str "receivedAt"),
              ("isAscending", Json.bool false)]]),
            ("limit", Json.num lim)], Json.str "q1"],
          Json.arr [Json.str "Email/get", Json.obj [
            ("accountId", optToJson st.account_id),
            ("#ids", Json.obj [("resultOf", Json.str "q1"),
              ("name", Json.str "Email/query"), ("path", Json.str "/ids")]),
            ("properties", Json.arr [Json.str "id", Json.str "subject",
              Json.str "from", Json.str "to", Json.str "receivedAt",
              Json.str "preview", Json.str "mailboxIds"])],
            Json.str "g1"]])).2.1,
         tr ++ (FastmailClient.make_jmap_request st net (Json.arr [
          Json.arr [Json.str "Email/query", Json.obj [
            ("accountId", optToJson st.account_id),
            ("filter", if ((if q != "" then [("text", Json.str q)] else []) ++
                  FastmailClient.inMailboxConditions r).isEmpty then Json.null
              else Json.obj ((if q != "" then [("text", Json.str q)] else []) ++
                FastmailClient.inMailboxConditions r)),
            ("sort", Json.arr [Json.obj [("property", Json.str "receivedAt"),
              ("isAscending", Json.bool false)]]),
            ("limit", Json.num lim)], Json.str "q1"],
          Json.arr [Json.str "Email/get", Json.obj [
            ("accountId", optToJson st.account_id),
            ("#ids", Json.obj [("resultOf", Json.str "q1"),
              ("name", Json.str "Email/query"), ("path", Json.str "/ids")]),
            ("properties", Json.arr [Json.str "id", Json.str "subject",
              Json.str "from", Json.str "to", Json.str "receivedAt",
              Json.str "preview", Json.str "mailboxIds"])],
            Json.str "g1"]])).2.2) := by
  have hC : ∀ fc : List (String × Json),
      FastmailClient.searchEmailsMethodCalls st.account_id fc lim
        = Json.arr [
          Json.arr [Json.str "Email/query", Json.obj [
            ("accountId", optToJson st.account_id),
            ("filter", if fc.isEmpty then Json.null else Json.obj fc),
            ("sort", Json.arr [Json.obj [("property", Json.str "receivedAt"),
              ("isAscending", Json.bool false)]]),
            ("limit", Json.num lim)], Json.str "q1"],
          Json.arr [Json.str "Email/get", Json.obj [
            ("accountId", optToJson st.account_id),
            ("#ids", Json.obj [("resultOf", Json.str "q1"),
              ("name", Json.str "Email/query"), ("path", Json.str "/ids")]),
            ("properties", Json.arr [Json.str "id", Json.str "subject",
              Json.str "from", Json.str "to", Json.str "receivedAt",
              Json.str "preview", Json.str "mailboxIds"])], Json.str "g1"]] :=
    fun fc => rfl
  constructor
  · unfold FastmailClient.search_emails
    rw [FastmailClient.searchFilterConditions_no_mailbox st net q none rfl]
    dsimp only
    rw [hC]
    have hfilter : (if (if q != "" then [("text", Json.str q)] else
          ([] : List (String × Json))).isEmpty then Json.null
        else Json.obj (if q != "" then [("text", Json.str q)] else []))
        = (if q != "" then Json.obj [("text", Json.str q)] else Json.null) := by
      cases hq : (q != "") <;> simp [hq]
    rw [hfilter]
    rcases FastmailClient.make_jmap_request st net _ with ⟨a, b, c⟩
    simp
  · unfold FastmailClient.search_emails
    rw [FastmailClient.searchFilterConditions_mailbox st st net q m r tr hm hmb]
    dsimp only
    rw [hC]

/-- Witness for C7 with a resolvable mailbox name. -/
theorem c7_search_two_chained_calls_witness :
    FastmailClient.search_emails wState wMbNet "x" 7 none
      = FastmailClient.make_jmap_request wState wMbNet (Json.arr [
          Json.arr [Json.str "Email/query", Json.obj [
            ("accountId", optToJson wState.account_id),
            ("filter", if ("x" != "") = true then Json.obj [("text", Json.str "x")]
                       else Json.null),
            ("sort", Json.arr [Json.obj [("property", Json.str "receivedAt"),
              ("isAscending", Json.bool false)]]),
            ("limit", Json.num 7)], Json.str "q1"],
          Json.arr [Json.str "Email/get", Json.obj [
            ("accountId", optToJson wState.account_id),
            ("#ids", Json.obj [("resultOf", Json.str "q1"),
              ("name", Json.str "Email/query"), ("path", Json.str "/ids")]),
            ("properties", Json.arr [Json.str "id", Json.str "subject",
              Json.str "from", Json.str "to", Json.str "receivedAt",
              Json.str "preview", Json.str "mailboxIds"])], Json.str "g1"]]) :=
  (c7_search_two_chained_calls wState wMbNet "x" "inbox" 7
    (some (Json.str "mb1"))
    [Request.post wUrl (FastmailClient.jmapPayload
      (FastmailClient.mailboxGetMethodCalls wState.account_id))]
    (by decide) rfl).1

/-- C8: when a truthy mailbox argument cannot be resolved to any folder
(`get_mailbox_id` returns `None`), the `inMailbox` condition is silently
omitted: apart from the lookup's own traffic, the search submits, answers
and leaves the client exactly as a search over all mailboxes would — no
error is reported to the caller. -/
theorem c8_unresolved_mailbox_ignored (st : ClientState) (net : Network)
    (q : String) (lim : Int) (m : String) (tr : List Request)
    (hm : ¬ m = "")
    (hmb : FastmailClient.get_mailbox_id st net m = (.ok none, st, tr)) :
    FastmailClient.search_emails st net q lim (some m)
      = ((FastmailClient.search_emails st net q lim none).1,
         (FastmailClient.search_emails st net q lim none).2.1,
         tr ++ (FastmailClient.search_emails st net q lim none).2.2) := by
  have hnone : FastmailClient.search_emails st net q lim none
      = match FastmailClient.make_jmap_request st net
          (FastmailClient.searchEmailsMethodCalls st.account_id
            (if q != "" then [("text", Json.str q)] else []) lim) with
        | (r, st2, tr2) => (r, st2, ([] : List Request) ++ tr2) := by
    unfold FastmailClient.search_emails
    rw [FastmailClient.searchFilterConditions_no_mailbox st net q none rfl]
  have hsome : FastmailClient.search_emails st net q lim (some m)
      = match FastmailClient.make_jmap_request st net
          (FastmailClient.searchEmailsMethodCalls st.account_id
            (if q != "" then [("text", Json.str q)] else []) lim) with
        | (r, st2, tr2) => (r, st2, tr ++ tr2) := by
    unfold FastmailClient.search_emails
    rw [FastmailClient.searchFilterConditions_mailbox st st net q m none tr hm hmb]
    dsimp only
    rw [show ((if q != "" then [("text", Json.str q)] else
        ([] : List (String × Json))) ++ FastmailClient.inMailboxConditions none)
        = (if q != "" then [("text", Json.str q)] else []) from by
      simp [FastmailClient.inMailboxConditions]]
  rw [hnone, hsome]
  rcases FastmailClient.make_jmap_request st net
    (FastmailClient.searchEmailsMethodCalls st.account_id
      (if q != "" then [("text", Json.str q)] else []) lim) with ⟨a, b, c⟩
  simp

/-- Witness for C8: a truthy mailbox name the provider listing cannot
resolve. -/
theorem c8_unresolved_mailbox_ignored_witness :
    FastmailClient.search_emails wState wMbNet "x" 7 (some "archive")
      = ((FastmailClient.search_emails wState wMbNet "x" 7 none).1,
         (FastmailClient.search_emails wState wMbNet "x" 7 none).2.1,
         [Request.post wUrl (FastmailClient.jmapPayload
           (FastmailClient.mailboxGetMethodCalls wState.account_id))] ++
           (FastmailClient.search_emails wState wMbNet "x" 7 none).2.2) :=
  c8_unresolved_mailbox_ignored wState wMbNet "x" 7 "archive"
    [Request.post wUrl (FastmailClient.jmapPayload
      (FastmailClient.mailboxGetMethodCalls wState.account_id))]
    (by decide) rfl

/-- A failing session fetch propagates out of `get_session` after exactly
one GET, leaving the state untouched. -/
theorem get_session_fetch_error (st : ClientState) (net : Network) (e : PyErr)
    (h0 : st.session_data = none) (he : net.sessionDoc = .error e) :
    FastmailClient.get_session st net = (.error e, st, [Request.getSession]) := by
  unfold FastmailClient.get_session
  rw [h0, he]

/-- A failing session fetch propagates out of `make_jmap_request`. -/
theorem make_jmap_request_fetch_error (st : ClientState) (net : Network)
    (calls : Json) (e : PyErr)
    (h0 : st.session_data = none) (he : net.sessionDoc = .error e) :
    FastmailClient.make_jmap_request st net calls
      = (.error e, st, [Request.getSession]) := by
  unfold FastmailClient.make_jmap_request
  rw [get_session_fetch_error st net e h0 he]

/-- A failing session fetch propagates out of `list_mailboxes`. -/
theorem list_mailboxes_fetch_error (st : ClientState) (net : Network)
    (e : PyErr) (h0 : st.session_data = none) (he : net.sessionDoc = .error e) :
    FastmailClient.list_mailboxes st net
      = (.error e, st, [Request.getSession]) := by
  unfold FastmailClient.list_mailboxes
  exact make_jmap_request_fetch_error st net _ e h0 he

/-- A failing session fetch propagates out of `get_mailbox_id`. -/
theorem get_mailbox_id_fetch_error (st : ClientState) (net : Network)
    (m : String) (e : PyErr)
    (h0 : st.session_data = none) (he : net.sessionDoc = .error e) :
    FastmailClient.get_mailbox_id st net m
      = (.error e, st, [Request.getSession]) := by
  unfold FastmailClient.get_mailbox_id
  rw [list_mailboxes_fetch_error st net e h0 he]

/-- A failing session fetch propagates out of the filter-building step when
the mailbox argument is truthy. -/
theorem searchFilterConditions_fetch_error (st : ClientState) (net : Network)
    (q : String) (mf : Option String) (e : PyErr)
    (h0 : st.session_data = none) (he : net.sessionDoc = .error e)
    (htm : FastmailClient.truthyStrOpt mf = true) :
    FastmailClient.searchFilterConditions st net q mf
      = (.error e, st, [Request.getSession]) := by
  unfold FastmailClient.searchFilterConditions
  rw [htm]
  dsimp only
  rw [get_mailbox_id_fetch_error st net (mf.getD "") e h0 he]
  rfl

/-- A failing session fetch propagates out of `search_emails` for every
mailbox argument. -/
theorem search_emails_fetch_error (st : ClientState) (net : Network)
    (q : String) (lim : Int) (mf : Option String) (e : PyErr)
    (h0 : st.session_data = none) (he : net.sessionDoc = .error e) :
    FastmailClient.search_emails st net q lim mf
      = (.error e, st, [Request.getSession]) := by
  cases htm : FastmailClient.truthyStrOpt mf with
  | true =>
    unfold FastmailClient.search_emails
    rw [searchFilterConditions_fetch_error st net q mf e h0 he htm]
  | false =>
    unfold FastmailClient.search_emails
    rw [FastmailClient.searchFilterConditions_no_mailbox st net q mf htm]
    dsimp only
    rw [make_jmap_request_fetch_error st net _ e h0 he]
    rfl

/-- A failing session fetch propagates out of `get_email`. -/
theorem get_email_fetch_error (st : ClientState) (net : Network)
    (eid : String) (e : PyErr)
    (h0 : st.session_data = none) (he : net.sessionDoc = .error e) :
    FastmailClient.get_email st net eid
      = (.error e, st, [Request.getSession]) := by
  unfold FastmailClient.get_email
  exact make_jmap_request_fetch_error st net _ e h0 he

/-- With a cached session but no usable API URL, `make_jmap_request` raises
the `ValueError` with no traffic. -/
theorem make_jmap_request_no_url (st : ClientState) (net : Network)
    (calls d : Json) (hs : st.session_data = some d)
    (hu : st.api_url = none) :
    FastmailClient.make_jmap_request st net calls
      = (.error (.valueError "API URL not available - session may have failed"),
         st, []) := by
  unfold FastmailClient.make_jmap_request
  rw [FastmailClient.get_session_cached st net d hs]
  dsimp only
  rw [hu]

/-- C9: when the first session fetch decodes but the document lacks the
primary mail account or the `apiUrl` key, `get_session` raises after having
already cached `session_data`; every later `get_session` serves the cached
malformed document without refetching, and every later `make_jmap_request`
raises the `ValueError` because `api_url` was never set. -/
theorem c9_malformed_session_document (st0 : ClientState) (net : Network)
    (doc : Json)
    (h0 : st0.session_data = none) (h0u : st0.api_url = none)
    (hdoc : net.sessionDoc = .ok doc)
    (hfail : (∃ e, (doc.dictGet "primaryAccounts" >>= fun pa =>
        pa.dictGet "urn:ietf:params:jmap:mail") = .error e) ∨
      (∃ acct e, (doc.dictGet "primaryAccounts" >>= fun pa =>
        pa.dictGet "urn:ietf:params:jmap:mail") = .ok acct ∧
        doc.dictGet "apiUrl" = .error e)) :
    ∃ (e : PyErr) (st1 : ClientState),
      FastmailClient.get_session st0 net = (.error e, st1, [Request.getSession])
      ∧ st1.session_data = some doc
      ∧ st1.api_url = none
      ∧ (∀ net2 : Network,
          FastmailClient.get_session st1 net2 = (.ok doc, st1, []))
      ∧ (∀ (net2 : Network) (calls : Json),
          FastmailClient.make_jmap_request st1 net2 calls
            = (.error (.valueError "API URL not available - session may have failed"),
               st1, [])) := by
  rcases hfail with ⟨e, he⟩ | ⟨acct, e, hok, herr⟩
  · refine ⟨e, { st0 with session_data := some doc }, ?_, rfl, h0u, ?_, ?_⟩
    · unfold FastmailClient.get_session
      rw [h0, hdoc]
      dsimp only
      rw [he]
    · intro net2
      exact FastmailClient.get_session_cached _ net2 doc rfl
    · intro net2 calls
      exact make_jmap_request_no_url _ net2 calls doc rfl h0u
  · refine ⟨e, { st0 with
        session_data := some doc,
        account_id := some acct }, ?_, rfl, h0u, ?_, ?_⟩
    · unfold FastmailClient.get_session
      rw [h0, hdoc]
      dsimp only
      rw [hok]
      dsimp only
      rw [herr]
    · intro net2
      exact FastmailClient.get_session_cached _ net2 doc rfl
    · intro net2 calls
      exact make_jmap_request_no_url _ net2 calls doc rfl h0u

/-- A session document that decodes but lacks the `apiUrl` key. -/
def c9Doc : Json := Json.obj [
  ("primaryAccounts", Json.obj [("urn:ietf:params:jmap:mail", Json.str "u1")])]

/-- Witness for C9 with the `apiUrl`-less document `c9Doc`. -/
theorem c9_malformed_session_document_witness :
    ∃ (e : PyErr) (st1 : ClientState),
      FastmailClient.get_session wFresh ⟨.ok c9Doc, fun _ _ => .ok Json.null⟩
        = (.error e, st1, [Request.getSession])
      ∧ st1.session_data = some c9Doc
      ∧ st1.api_url = none
      ∧ (∀ net2 : Network,
          FastmailClient.get_session st1 net2 = (.ok c9Doc, st1, []))
      ∧ (∀ (net2 : Network) (calls : Json),
          FastmailClient.make_jmap_request st1 net2 calls
            = (.error (.valueError "API URL not available - session may have failed"),
               st1, [])) :=
  c9_malformed_session_document wFresh ⟨.ok c9Doc, fun _ _ => .ok Json.null⟩
    c9Doc rfl rfl rfl
    (Or.inr ⟨Json.str "u1", .keyError "apiUrl", rfl, rfl⟩)

/-- C10: when a decoded `Mailbox/get` response is a JSON object whose
`methodResponses` key is absent or holds an empty list, `get_mailbox_id`
raises an `IndexError` rather than returning `None`: the `[[]]` default for
the absent key still leads to indexing `[1]` of an empty inner list, and an
empty present list fails already at `[0]`. -/
theorem c10_empty_method_responses_index_error (st : ClientState)
    (net : Network) (d url : Json) (fsr : List (String × Json))
    (mailbox_name : String)
    (hs : st.session_data = some d) (hu : st.api_url = some url)
    (ht : url.truthy = true)
    (hpost : net.post url (FastmailClient.jmapPayload
        (FastmailClient.mailboxGetMethodCalls st.account_id))
      = .ok (Json.obj fsr))
    (hmr : (Json.obj fsr).lookup? "methodResponses" = none ∨
      (Json.obj fsr).lookup? "methodResponses" = some (Json.arr [])) :
    FastmailClient.get_mailbox_id st net mailbox_name
      = (.error .indexError, st,
         [Request.post url (FastmailClient.jmapPayload
           (FastmailClient.mailboxGetMethodCalls st.account_id))]) := by
  unfold FastmailClient.get_mailbox_id FastmailClient.list_mailboxes
  rw [FastmailClient.make_jmap_request_loaded st net
    (FastmailClient.mailboxGetMethodCalls st.account_id) d url hs hu ht]
  dsimp only
  rw [hpost]
  dsimp only
  rcases hmr with habsent | hempty
  · rw [Json.dictGetD_of_lookup_none fsr "methodResponses"
      (Json.arr [Json.arr []]) habsent]
    rfl
  · rw [Json.dictGetD_of_lookup fsr "methodResponses"
      (Json.arr [Json.arr []]) (Json.arr []) hempty]
    rfl

/-- Witness for C10: the decoded response `{}` lacks `methodResponses`. -/
theorem c10_empty_method_responses_index_error_witness :
    FastmailClient.get_mailbox_id wState
        ⟨.ok wDoc, fun _ _ => .ok (Json.obj [])⟩ "inbox"
      = (.error .indexError, wState,
         [Request.post wUrl (FastmailClient.jmapPayload
           (FastmailClient.mailboxGetMethodCalls wState.account_id))]) :=
  c10_empty_method_responses_index_error wState
    ⟨.ok wDoc, fun _ _ => .ok (Json.obj [])⟩ wDoc wUrl [] "inbox"
    rfl rfl rfl rfl (Or.inl rfl)

/-- C5: failures inside a tool invocation — a missing token, an HTTP error
status on the session fetch, a malformed response body — are trapped at the
tool boundary of all three tools and surfaced as plain error text, never as
a propagated exception; each failing invocation performs at most one network
request (no retry) and leaves the client for the next, independent
invocation. -/
theorem c5_tool_boundary_error_text (netA netB : Network)
    (tok q mb eid : String) (lim : Int) (st0 st : ClientState)
    (doc url : Json) (code : Nat)
    (hA : netA.sessionDoc = .error (.httpStatusError code))
    (h0 : st0.session_data = none)
    (hs : st.session_data = some doc) (hu : st.api_url = some url)
    (ht : url.truthy = true)
    (hB : ∀ u p, netB.post u p = .ok (Json.arr []))
    (heid : ¬ eid = "") :
    (Tools.search_emails none "" netA q lim mb).1
      = "Error searching emails: FASTMAIL_API_TOKEN is not configured. Please provide your Fastmail API token in the configuration."
    ∧ (Tools.get_email none "" netA eid).1
      = "Error retrieving email: FASTMAIL_API_TOKEN is not configured. Please provide your Fastmail API token in the configuration."
    ∧ (Tools.list_mailboxes none "" netA).1
      = "Error listing mailboxes: FASTMAIL_API_TOKEN is not configured. Please provide your Fastmail API token in the configuration."
    ∧ Tools.search_emails (some st0) tok netA q lim mb
      = ("Error searching emails: HTTP status error " ++ toString code,
         some st0, [Request.getSession])
    ∧ Tools.get_email (some st0) tok netA eid
      = ("Error retrieving email: HTTP status error " ++ toString code,
         some st0, [Request.getSession])
    ∧ Tools.list_mailboxes (some st0) tok netA
      = ("Error listing mailboxes: HTTP status error " ++ toString code,
         some st0, [Request.getSession])
    ∧ ((Tools.search_emails (some st) tok netB q lim "").1
        = "Error searching emails: attribute error"
      ∧ (Tools.search_emails (some st) tok netB q lim "").2.2.length = 1)
    ∧ ((Tools.get_email (some st) tok netB eid).1
        = "Error retrieving email: attribute error"
      ∧ (Tools.get_email (some st) tok netB eid).2.2.length = 1)
    ∧ ((Tools.list_mailboxes (some st) tok netB).1
        = "Error listing mailboxes: attribute error"
      ∧ (Tools.list_mailboxes (some st) tok netB).2.2.length = 1) := by
  have hsearchA : Tools.search_emails (some st0) tok netA q lim mb
      = ("Error searching emails: HTTP status error " ++ toString code,
         some st0, [Request.getSession]) := by
    unfold Tools.search_emails Tools.searchEmailsBody
    rw [show Tools.get_client (some st0) tok = (.ok st0, some st0) from rfl]
    dsimp only
    rw [search_emails_fetch_error st0 netA q (min lim 50)
      (if mb != "" then some mb else none) (.httpStatusError code) h0 hA]
    rfl
  have hgetA : Tools.get_email (some st0) tok netA eid
      = ("Error retrieving email: HTTP status error " ++ toString code,
         some st0, [Request.getSession]) := by
    unfold Tools.get_email Tools.getEmailBody
    rw [if_neg heid]
    rw [show Tools.get_client (some st0) tok = (.ok st0, some st0) from rfl]
    dsimp only
    rw [get_email_fetch_error st0 netA eid (.httpStatusError code) h0 hA]
    rfl
  have hlistA : Tools.list_mailboxes (some st0) tok netA
      = ("Error listing mailboxes: HTTP status error " ++ toString code,
         some st0, [Request.getSession]) := by
    unfold Tools.list_mailboxes Tools.listMailboxesBody
    rw [show Tools.get_client (some st0) tok = (.ok st0, some st0) from rfl]
    dsimp only
    rw [list_mailboxes_fetch_error st0 netA (.httpStatusError code) h0 hA]
    rfl
  have hsearchB : Tools.search_emails (some st) tok netB q lim ""
      = ("Error searching emails: attribute error", some st,
         [Request.post url (FastmailClient.jmapPayload
           (FastmailClient.searchEmailsMethodCalls st.account_id
             (if q != "" then [("text", Json.str q)] else []) (min lim 50)))]) := by
    unfold Tools.search_emails Tools.searchEmailsBody
    rw [show Tools.get_client (some st) tok = (.ok st, some st) from rfl]
    dsimp only
    simp only [bne_self_eq_false, Bool.false_eq_true, if_false]
    rw [FastmailClient.search_emails_loaded st netB q (min lim 50) none
      (if q != "" then [("text", Json.str q)] else []) [] doc url hs hu ht
      (FastmailClient.searchFilterConditions_no_mailbox st netB q none rfl)]
    rw [hB url (FastmailClient.jmapPayload
      (FastmailClient.searchEmailsMethodCalls st.account_id
        (if q != "" then [("text", Json.str q)] else []) (min lim 50)))]
    rfl
  have hgetB : Tools.get_email (some st) tok netB eid
      = ("Error retrieving email: attribute error", some st,
         [Request.post url (FastmailClient.jmapPayload
           (FastmailClient.getEmailMethodCalls st.account_id eid))]) := by
    unfold Tools.get_email Tools.getEmailBody
    rw [if_neg heid]
    rw [show Tools.get_client (some st) tok = (.ok st, some st) from rfl]
    dsimp only
    unfold FastmailClient.get_email
    rw [FastmailClient.make_jmap_request_loaded st netB
      (FastmailClient.getEmailMethodCalls st.account_id eid) doc url hs hu ht]
    rw [hB url (FastmailClient.jmapPayload
      (FastmailClient.getEmailMethodCalls st.account_id eid))]
    rfl
  have hlistB : Tools.list_mailboxes (some st) tok netB
      = ("Error listing mailboxes: attribute error", some st,
         [Request.post url (FastmailClient.jmapPayload
           (FastmailClient.mailboxGetMethodCalls st.account_id))]) := by
    unfold Tools.list_mailboxes Tools.listMailboxesBody
    rw [show Tools.get_client (some st) tok = (.ok st, some st) from rfl]
    dsimp only
    unfold FastmailClient.list_mailboxes
    rw [FastmailClient.make_jmap_request_loaded st netB
      (FastmailClient.mailboxGetMethodCalls st.account_id) doc url hs hu ht]
    rw [hB url (FastmailClient.jmapPayload
      (FastmailClient.mailboxGetMethodCalls st.account_id))]
    rfl
  have hgetTok : (Tools.get_email none "" netA eid).1
      = "Error retrieving email: FASTMAIL_API_TOKEN is not configured. Please provide your Fastmail API token in the configuration." := by
    unfold Tools.get_email Tools.getEmailBody
    rw [if_neg heid]
    rfl
  exact ⟨rfl, hgetTok, rfl, hsearchA, hgetA, hlistA,
    ⟨by rw [hsearchB], by rw [hsearchB]; rfl⟩,
    ⟨by rw [hgetB], by rw [hgetB]; rfl⟩,
    ⟨by rw [hlistB], by rw [hlistB]; rfl⟩⟩

/-- A network whose session fetch fails with an HTTP 500 status. -/
def c5NetA : Network := ⟨.error (.httpStatusError 500), fun _ _ => .ok Json.null⟩

/-- A network answering every POST with a decoded JSON list. -/
def c5NetB : Network := ⟨.ok wDoc, fun _ _ => .ok (Json.arr [])⟩

/-- Witness for C5 across the three failure classes and three tools. -/
theorem c5_tool_boundary_error_text_witness :
    (Tools.search_emails none "" c5NetA "q" 10 "inbox").1
      = "Error searching emails: FASTMAIL_API_TOKEN is not configured. Please provide your Fastmail API token in the configuration."
    ∧ (Tools.get_email none "" c5NetA "e1").1
      = "Error retrieving email: FASTMAIL_API_TOKEN is not configured. Please provide your Fastmail API token in the configuration."
    ∧ (Tools.list_mailboxes none "" c5NetA).1
      = "Error listing mailboxes: FASTMAIL_API_TOKEN is not configured. Please provide your Fastmail API token in the configuration."
    ∧ Tools.search_emails (some wFresh) "token" c5NetA "q" 10 "inbox"
      = ("Error searching emails: HTTP status error " ++ toString 500,
         some wFresh, [Request.getSession])
    ∧ Tools.get_email (some wFresh) "token" c5NetA "e1"
      = ("Error retrieving email: HTTP status error " ++ toString 500,
         some wFresh, [Request.getSession])
    ∧ Tools.list_mailboxes (some wFresh) "token" c5NetA
      = ("Error listing mailboxes: HTTP status error " ++ toString 500,
         some wFresh, [Request.getSession])
    ∧ ((Tools.search_emails (some wState) "token" c5NetB "q" 10 "").1
        = "Error searching emails: attribute error"
      ∧ (Tools.search_emails (some wState) "token" c5NetB "q" 10 "").2.2.length = 1)
    ∧ ((Tools.get_email (some wState) "token" c5NetB "e1").1
        = "Error retrieving email: attribute error"
      ∧ (Tools.get_email (some wState) "token" c5NetB "e1").2.2.length = 1)
    ∧ ((Tools.list_mailboxes (some wState) "token" c5NetB).1
        = "Error listing mailboxes: attribute error"
      ∧ (Tools.list_mailboxes (some wState) "token" c5NetB).2.2.length = 1) :=
  c5_tool_boundary_error_text c5NetA c5NetB "token" "q" "inbox" "e1" 10
    wFresh wState wDoc wUrl 500 rfl rfl rfl rfl rfl (fun _ _ => rfl)
    (by decide)

/-- Witness for C6: a fresh client loads the session first and then POSTs. -/
theorem c6_make_jmap_request_shape_witness :
    FastmailClient.make_jmap_request wFresh ⟨.ok wDoc, fun _ _ => .ok Json.null⟩
        (Json.arr [])
      = ((⟨.ok wDoc, fun _ _ => .ok Json.null⟩ : Network).post wUrl (Json.obj [
          ("using", Json.arr [Json.str "urn:ietf:params:jmap:core",
            Json.str "urn:ietf:params:jmap:mail"]),
          ("methodCalls", Json.arr [])]), wState,
         [Request.getSession] ++ [Request.post wUrl (Json.obj [
          ("using", Json.arr [Json.str "urn:ietf:params:jmap:core",
            Json.str "urn:ietf:params:jmap:mail"]),
          ("methodCalls", Json.arr [])])]) :=
  c6_make_jmap_request_shape wFresh wState ⟨.ok wDoc, fun _ _ => .ok Json.null⟩
    (Json.arr []) wDoc wUrl [Request.getSession] rfl rfl rfl
